import Mathlib

/-!
# Verification of the Upbound control-plane cloud adapter and dependency parser

Shallow embedding of two Go components:

* package `cloud` — a client adapter wrapping a remote control-plane API
  client (`ctpClient`) and a configuration lookup client (`cfgGetter`),
  exposing `Get`/`List`/`Create`/`Delete`/`GetKubeConfig` and a DTO
  conversion (`convert`, `formatStatus`, `toMessage`, `toBool`);
* package `dep` — `New`, parsing a `source@version` package reference into
  a dependency descriptor.

Go `error` values are modelled by an explicit error type, Go `nil`-able
pointers by `Option`, and a possible runtime panic (nil-pointer
dereference) by an outer `Option` (`none` = panic).  Each client operation
additionally returns the list of calls it issued to the wrapped backend
clients, in order, so that "does not invoke the backend" and "exactly one
lookup call before the create call" become statements about that list.
-/

namespace UpCloud

/-! ## ASCII character helpers (models of Go `strings` primitives) -/

/-- Is `c` an ASCII lowercase letter? -/
def isLowerAscii (c : Char) : Bool := 97 ≤ c.toNat && c.toNat ≤ 122

/-- Is `c` an ASCII uppercase letter? -/
def isUpperAscii (c : Char) : Bool := 65 ≤ c.toNat && c.toNat ≤ 90

/-- Is `c` an ASCII digit? -/
def isDigitAscii (c : Char) : Bool := 48 ≤ c.toNat && c.toNat ≤ 57

/-- ASCII lower-casing of one character (model of `unicode.ToLower` on the
ASCII range; characters outside `A`-`Z` are returned unchanged). -/
def asciiToLower (c : Char) : Char :=
  if isUpperAscii c then Char.ofNat (c.toNat + 32) else c

/-- ASCII upper-casing of one character (model of `unicode.ToUpper` /
`unicode.ToTitle` on the ASCII range; characters outside `a`-`z` are
returned unchanged). -/
def asciiToUpper (c : Char) : Char :=
  if isLowerAscii c then Char.ofNat (c.toNat - 32) else c

/-- Model of Go `strings.ToLower` (exact on ASCII input; non-ASCII
characters, which never occur in the constants this development compares
against, are left unchanged). -/
def goToLower (s : String) : String := String.mk (s.data.map asciiToLower)

/-- Model of Go `strings.isSeparator`: on the ASCII fast path a character
is a separator iff it is not a letter, digit or underscore.  Non-ASCII
characters (irrelevant to the ASCII constants compared against here) are
conservatively treated as separators. -/
def goIsSeparator (c : Char) : Bool :=
  if c.toNat ≤ 127 then
    !(isDigitAscii c || isLowerAscii c || isUpperAscii c || c = '_')
  else
    true

/-- Core loop of Go `strings.Title`: a character is title-cased exactly
when the previous character (initially a space) is a separator. -/
def goTitleAux : Char → List Char → List Char
  | _, [] => []
  | prev, c :: cs =>
      (if goIsSeparator prev then asciiToUpper c else c) :: goTitleAux c cs

/-- Model of Go `strings.Title`. -/
def goTitle (s : String) : String := String.mk (goTitleAux ' ' s.data)

/-- Model of Go `strings.Split (s, sep)` for the one-character separator
`"@"`, on the character list: splits around every occurrence of `'@'`,
always returning at least one (possibly empty) part. -/
def goSplitAt : List Char → List (List Char)
  | [] => [[]]
  | c :: cs =>
      if c = '@' then
        [] :: goSplitAt cs
      else
        match goSplitAt cs with
        | [] => [[c]]
        | p :: ps => (c :: p) :: ps

/-! ## package `dep` (src/internal/dep/dep.go) -/

/-- `v1beta1.PackageType` is a string-valued enum in the crossplane API;
value of `v1beta1.ProviderPackageType`. -/
def ProviderPackageType : String := "Provider"

/-- Value of `v1beta1.ConfigurationPackageType`. -/
def ConfigurationPackageType : String := "Configuration"

/-- `defaultVer`: the sentinel constraint used when no `@version` suffix is
given. -/
def defaultVer : String := "latest"

/-- `v1beta1.Dependency`, restricted to the fields `New` populates.  The
Go field `Type` is spelled `type` here (`Type` is a Lean keyword). -/
structure Dependency where
  Package : String
  type : String
  Constraints : String
deriving DecidableEq, Repr

/-- `dep.New (pkg, t)`: splits `pkg` on `"@"`; the first part is the
source; the second part is the version, but only when the split produced
exactly two parts; the type defaults to the provider package type and
becomes the configuration package type when
`strings.Title (strings.ToLower t)` equals it. -/
def New (pkg t : String) : Dependency :=
  let ps := (goSplitAt pkg.data).map (fun l => String.mk l)
  let source := ps.headD ""
  let version :=
    match ps with
    | [_, v] => v
    | _ => defaultVer
  let d : Dependency :=
    { Package := source, type := ProviderPackageType, Constraints := version }
  if goTitle (goToLower t) = ConfigurationPackageType then
    { d with type := ConfigurationPackageType }
  else
    d

/-! Spec-side string operations ("the part before / after the first `@`"),
used to compare `New` against the specification's description of the
split. -/

/-- The part of `s` strictly before the first `'@'` (all of `s` when there
is none). -/
def specBeforeFirstAt (s : String) : String :=
  String.mk (s.data.takeWhile (fun c => c ≠ '@'))

/-- The part of `s` strictly after the first `'@'` (empty when there is
none). -/
def specAfterFirstAt (s : String) : String :=
  String.mk ((s.data.dropWhile (fun c => c ≠ '@')).tail)

/-- Number of `'@'` characters in `s`. -/
def atCount (s : String) : Nat := s.data.count '@'

/-! ## package `cloud`: data model -/

/-- `maxItems`: the fixed page size used by `Client.List`. -/
def maxItems : Nat := 100

/-- `k8s.io/apimachinery` `types.NamespacedName`. -/
structure NamespacedName where
  Namespace : String
  Name : String
deriving DecidableEq, Repr

/-- Go `error` values that flow through this adapter.  `simple` models
`errors.New` and any other plain backend error; `sdkNotFound` models a
backend error for which `sdkerrs.IsNotFound` reports true; `ctpNotFound`
models the typed wrapper built by `controlplane.NewNotFound`. -/
inductive GoErr where
  | simple (msg : String)
  | sdkNotFound (msg : String)
  | ctpNotFound (inner : GoErr)
deriving DecidableEq, Repr

/-- `sdkerrs.IsNotFound`: true exactly on the SDK's not-found error. -/
def isNotFound : GoErr → Bool
  | .sdkNotFound _ => true
  | _ => false

/-- The message of the error returned for a non-empty namespace. -/
def nsErrMsg : String := "namespace is not supported for Upbound Cloud control planes"

/-- `controlplanes.Status` value `StatusReady` (SDK constant). -/
def StatusReady : String := "ready"

/-- `controlplanes.Status` value `StatusProvisioning` (SDK constant). -/
def StatusProvisioning : String := "provisioning"

/-- `controlplanes.Status` value `StatusUpdating` (SDK constant). -/
def StatusUpdating : String := "updating"

/-- `controlplanes.Status` value `StatusDeleting` (SDK constant). -/
def StatusDeleting : String := "deleting"

/-- `controlplanes.ConfigurationStatus` value `ConfigurationReady` (SDK
constant). -/
def ConfigurationReady : String := "ready"

/-- The configuration reference carried inside a backend control plane:
`Name` is a `*string` (hence `Option`), `Status` a string-valued enum. -/
structure ControlPlaneConfiguration where
  Name : Option String
  Status : String
deriving DecidableEq, Repr

/-- The backend control plane object (`controlplanes.ControlPlane`),
restricted to the fields `convert` reads.  `ID` is the UUID already in its
string form (the Go code calls `.String()` on it); `CreatedAt` is a
`*time.Time`, modelled as an optional integral timestamp. -/
structure ControlPlane where
  ID : String
  Name : String
  Configuration : Option ControlPlaneConfiguration
  CreatedAt : Option Int
deriving DecidableEq, Repr

/-- `controlplanes.ControlPlaneResponse`: the control plane plus its
status. -/
structure ControlPlaneResponse where
  ControlPlane : ControlPlane
  Status : String
deriving DecidableEq, Repr

/-- `controlplanes.ControlPlaneListResponse`, restricted to the element
slice. -/
structure ControlPlaneListResponse where
  ControlPlanes : List ControlPlaneResponse
deriving DecidableEq, Repr

/-- `controlplanes.ControlPlaneCreateParameters`: `ConfigurationID` is a
`*uuid.UUID` (string form), nil unless a configuration was resolved. -/
structure ControlPlaneCreateParameters where
  Name : String
  Description : String
  ConfigurationID : Option String
deriving DecidableEq, Repr

/-- `configurations.ConfigurationResponse`, restricted to the `ID` field
(the UUID, in string form) that `Create` reads. -/
structure ConfigurationResponse where
  ID : String
deriving DecidableEq, Repr

/-- `internal/controlplane.Response`: the normalized response DTO, with
the fields `convert` populates.  `Age` is `*time.Duration`. -/
structure Response where
  ID : String
  Name : String
  Synced : String
  Ready : String
  Message : String
  Cfg : String
  Updated : String
  Age : Option Int
deriving DecidableEq, Repr

/-- One invocation of a wrapped client, with its arguments.  Client
operations return the list of these they issued, in order. -/
inductive Call where
  | ctpGet (account name : String)
  | ctpList (account : String) (size : Nat)
  | ctpCreate (account : String) (params : ControlPlaneCreateParameters)
  | ctpDelete (account name : String)
  | cfgGet (account name : String)
deriving DecidableEq, Repr

/-- `controlplane.Options` (creation options): an optional description and
an optional configuration name (`*string`). -/
structure Options where
  Description : String
  ConfigurationName : Option String
deriving DecidableEq, Repr

/-- The cloud `Client`: the two wrapped clients are modelled as response
functions (`ctpClient` and `cfgGetter` interfaces), together with the
account, token and proxy configured at construction. -/
structure Client where
  ctpGet : String → String → Except GoErr ControlPlaneResponse
  ctpList : String → Nat → Except GoErr ControlPlaneListResponse
  ctpCreate : String → ControlPlaneCreateParameters → Except GoErr ControlPlaneResponse
  ctpDelete : String → String → Except GoErr Unit
  cfgGet : String → String → Except GoErr ConfigurationResponse
  account : String
  token : String
  proxy : Option String

/-! ## package `cloud`: conversion -/

/-- `toBool`: renders a boolean as `"True"` / `"False"`. -/
def toBool (b : Bool) : String := if b then "True" else "False"

/-- `toMessage`: human status message derived from the backend status. -/
def toMessage (status : String) : String :=
  if status = StatusProvisioning then "Controlplane is being created"
  else if status = StatusUpdating then "Controlplane is being updated"
  else if status = StatusDeleting then "Controlplane is being deleted"
  else ""

/-- `formatStatus`: empty stays empty, the ready status renders as
`"True"`, and any other status has its first byte upper-cased (Go
`strings.ToUpper (string status [:1]) ++ string status [1:]`). -/
def formatStatus (status : String) : String :=
  if status = "" then ""
  else if status = ConfigurationReady then "True"
  else
    match status.data with
    | [] => ""
    | c :: cs => String.mk (asciiToUpper c :: cs)

/-- `convert`: translates a backend DTO into the normalized response.
`now` makes the wall clock of `time.Since` explicit.  The result is `none`
exactly when the Go code would panic: it dereferences
`ctp.ControlPlane.Configuration.Name` without a nil check. -/
def convert (ctp : ControlPlaneResponse) (now : Int) : Option Response :=
  let nameStatus : Option (String × String) :=
    match ctp.ControlPlane.Configuration with
    | none => some ("", "")
    | some cfg =>
        match cfg.Name with
        | none => none
        | some n => some (n, cfg.Status)
  match nameStatus with
  | none => none
  | some (cfgName, cfgStatus) =>
      let age : Option Int := ctp.ControlPlane.CreatedAt.map (fun t => now - t)
      some
        { ID := ctp.ControlPlane.ID
          Name := ctp.ControlPlane.Name
          Synced := toBool true
          Ready := toBool (ctp.Status = StatusReady)
          Message := toMessage ctp.Status
          Cfg := cfgName
          Updated := formatStatus cfgStatus
          Age := age }

/-- The spec's capitalization rule, stated independently of the code:
first character upper-cased, remainder unchanged. -/
def specCapitalize (s : String) : String :=
  match s.data with
  | [] => ""
  | c :: cs => String.mk (asciiToUpper c :: cs)

/-- Conversion of a whole backend list, in order; `none` if any element
conversion panics. -/
def convertList (l : List ControlPlaneResponse) (now : Int) : Option (List Response) :=
  match l with
  | [] => some []
  | r :: rs =>
      match convert r now with
      | none => none
      | some x => (convertList rs now).map (fun xs => x :: xs)

/-! ## package `cloud`: client operations

Each operation returns `(result?, calls)`: `result?` is `none` when the Go
code panics, otherwise `some` of the Go return value, and `calls` is the
ordered list of invocations issued to the wrapped clients. -/

/-- The ordered log of wrapped-client invocations an operation issued. -/
abbrev CallLog : Type := List Call

/-- The slice of normalized responses returned by `Client.List`. -/
abbrev ResponseList : Type := List Response

/-- `Client.Get`. -/
def Client.Get (c : Client) (now : Int) (ctp : NamespacedName) :
    Option (Except GoErr Response) × CallLog :=
  if ctp.Namespace ≠ "" then
    (some (.error (.simple nsErrMsg)), [])
  else
    match c.ctpGet c.account ctp.Name with
    | .error e =>
        if isNotFound e then
          (some (.error (.ctpNotFound e)), [Call.ctpGet c.account ctp.Name])
        else
          (some (.error e), [Call.ctpGet c.account ctp.Name])
    | .ok resp =>
        ((convert resp now).map Except.ok, [Call.ctpGet c.account ctp.Name])

/-- `Client.List`; `ns` is the Go parameter `namespace` (a Lean
keyword). -/
def Client.List (c : Client) (now : Int) (ns : String) :
    Option (Except GoErr ResponseList) × CallLog :=
  if ns ≠ "" then
    (some (.error (.simple nsErrMsg)), [])
  else
    match c.ctpList c.account maxItems with
    | .error e => (some (.error e), [Call.ctpList c.account maxItems])
    | .ok l =>
        ((convertList l.ControlPlanes now).map Except.ok,
          [Call.ctpList c.account maxItems])

/-- The tail of `Client.Create` shared by both branches: submit the
creation request and convert the result. -/
def Client.createAndConvert (c : Client) (now : Int)
    (params : ControlPlaneCreateParameters) : Option (Except GoErr Response) :=
  match c.ctpCreate c.account params with
  | .error e => some (.error e)
  | .ok resp => (convert resp now).map Except.ok

/-- `Client.Create`. -/
def Client.Create (c : Client) (now : Int) (ctp : NamespacedName)
    (opts : Options) : Option (Except GoErr Response) × CallLog :=
  if ctp.Namespace ≠ "" then
    (some (.error (.simple nsErrMsg)), [])
  else
    let params : ControlPlaneCreateParameters :=
      { Name := ctp.Name, Description := opts.Description, ConfigurationID := none }
    match opts.ConfigurationName with
    | none =>
        (c.createAndConvert now params, [Call.ctpCreate c.account params])
    | some n =>
        match c.cfgGet c.account n with
        | .error e => (some (.error e), [Call.cfgGet c.account n])
        | .ok cfg =>
            let params2 := { params with ConfigurationID := some cfg.ID }
            (c.createAndConvert now params2,
              [Call.cfgGet c.account n, Call.ctpCreate c.account params2])

/-- `Client.Delete`. -/
def Client.Delete (c : Client) (ctp : NamespacedName) :
    Option (Except GoErr Unit) × CallLog :=
  if ctp.Namespace ≠ "" then
    (some (.error (.simple nsErrMsg)), [])
  else
    match c.ctpDelete c.account ctp.Name with
    | .error e =>
        if isNotFound e then
          (some (.error (.ctpNotFound e)), [Call.ctpDelete c.account ctp.Name])
        else
          (some (.error e), [Call.ctpDelete c.account ctp.Name])
    | .ok _ => (some (.ok ()), [Call.ctpDelete c.account ctp.Name])

/-! ## package `cloud`: kubeconfig -/

/-- Model of Go `path.Clean` over a stack of path elements. -/
def pathCleanStack (rooted : Bool) : List String → List String → List String
  | acc, [] => acc.reverse
  | acc, e :: es =>
      if e = "" ∨ e = "." then pathCleanStack rooted acc es
      else if e = ".." then
        match acc with
        | top :: rest =>
            if top = ".." then pathCleanStack rooted (e :: acc) es
            else pathCleanStack rooted rest es
        | [] =>
            if rooted then pathCleanStack rooted [] es
            else pathCleanStack rooted [e] es
      else pathCleanStack rooted (e :: acc) es

/-- Splitting a character list around every `'/'`, always returning at
least one (possibly empty) part. -/
def splitSlash : List Char → List (List Char)
  | [] => [[]]
  | c :: cs =>
      if c = '/' then
        [] :: splitSlash cs
      else
        match splitSlash cs with
        | [] => [[c]]
        | p :: ps => (c :: p) :: ps

/-- Model of Go `path.Clean`. -/
def pathClean (p : String) : String :=
  if p = "" then "."
  else
    let rooted := p.data.headD ' ' = '/'
    let parts :=
      ((splitSlash p.data).map (fun l => String.mk l)).filter (fun e => e ≠ "")
    let cleaned := pathCleanStack rooted [] parts
    let body := String.intercalate "/" cleaned
    if rooted then "/" ++ body
    else if body = "" then "." else body

/-- Model of Go `path.Join` for two elements: drops leading empty
elements, joins the rest with `"/"` and cleans the result. -/
def pathJoin (a b : String) : String :=
  if a ≠ "" then pathClean (a ++ "/" ++ b)
  else if b ≠ "" then pathClean b
  else ""

/-- Modelled from the spec: `kube.BuildControlPlaneKubeconfig` lives in
the repository's `internal/kube` package, which is not among the provided
sources.  The spec describes it as a pure builder producing a structured
access-credential bundle from a proxy endpoint, a path, a token and a
flag, and defines it to never fail; it is modelled as the structure
packing those inputs. -/
structure KubeConfigBundle where
  proxy : Option String
  path : String
  token : String
  secure : Bool
deriving DecidableEq, Repr

/-- Modelled from the spec: the credential builder packs its inputs. -/
def BuildControlPlaneKubeconfig (proxy : Option String) (p token : String)
    (secure : Bool) : KubeConfigBundle :=
  { proxy := proxy, path := p, token := token, secure := secure }

/-- `Client.GetKubeConfig`: builds the bundle from the configured proxy,
the joined `account/name` path and the configured token; no namespace
check, no backend call. -/
def Client.GetKubeConfig (c : Client) (ctp : NamespacedName) :
    Option (Except GoErr KubeConfigBundle) × CallLog :=
  (some (.ok (BuildControlPlaneKubeconfig c.proxy
      (pathJoin c.account ctp.Name) c.token false)), [])

/-! ## Concrete fixtures

Sample backend objects and clients used to instantiate the theorems on
concrete inputs. -/

/-- A backend control plane carrying a configuration reference. -/
def sampleCfgCP : ControlPlaneResponse :=
  ⟨⟨"id1", "cp1", some ⟨some "cfg1", "pending"⟩, none⟩, "ready"⟩

/-- A backend control plane without a configuration reference. -/
def samplePlainCP : ControlPlaneResponse :=
  ⟨⟨"id2", "cp2", none, none⟩, "provisioning"⟩

/-- A client whose wrapped calls all succeed. -/
def okClient : Client :=
  { ctpGet := fun _ _ => .ok sampleCfgCP
    ctpList := fun _ _ => .ok ⟨[sampleCfgCP, samplePlainCP]⟩
    ctpCreate := fun _ _ => .ok samplePlainCP
    ctpDelete := fun _ _ => .ok ()
    cfgGet := fun _ _ => .ok ⟨"cfg-uuid"⟩
    account := "acct"
    token := "tok"
    proxy := some "https://proxy.upbound.io/v1/controlPlanes" }

/-- A client whose control-plane reads and configuration lookups fail:
get/delete with the SDK not-found error, the lookup with a plain error. -/
def notFoundClient : Client :=
  { okClient with
    ctpGet := fun _ _ => .error (.sdkNotFound "control plane not found")
    ctpDelete := fun _ _ => .error (.sdkNotFound "control plane not found")
    cfgGet := fun _ _ => .error (.simple "configuration lookup failed") }

/-- A client whose control-plane reads fail with a generic error. -/
def failingClient : Client :=
  { okClient with
    ctpGet := fun _ _ => .error (.simple "backend unavailable")
    ctpDelete := fun _ _ => .error (.simple "backend unavailable")
    ctpList := fun _ _ => .error (.simple "backend unavailable") }

/-- A client whose listing succeeds with zero elements. -/
def emptyListClient : Client :=
  { okClient with ctpList := fun _ _ => .ok ⟨[]⟩ }

end UpCloud

namespace UpCloud

/-! ## Lemmas about the split -/

theorem goSplitAt_ne_nil (l : List Char) : goSplitAt l ≠ [] := by
  induction l with
  | nil => simp [goSplitAt]
  | cons c cs ih =>
    by_cases hc : c = '@'
    · simp [goSplitAt, hc]
    · rcases h : goSplitAt cs with _ | ⟨p, ps⟩
      · exact absurd h ih
      · simp [goSplitAt, hc, h]

theorem goSplitAt_head (l : List Char) :
    (goSplitAt l).headD [] = l.takeWhile (fun c => c ≠ '@') := by
  induction l with
  | nil => simp [goSplitAt]
  | cons c cs ih =>
    by_cases hc : c = '@'
    · simp [goSplitAt, hc, List.takeWhile_cons]
    · rcases h : goSplitAt cs with _ | ⟨p, ps⟩
      · exact absurd h (goSplitAt_ne_nil cs)
      · rw [h] at ih
        simp only [List.headD_cons] at ih
        simp [goSplitAt, hc, h, List.takeWhile_cons, ih]

theorem goSplitAt_count_zero (l : List Char) (h : l.count '@' = 0) :
    goSplitAt l = [l] := by
  induction l with
  | nil => simp [goSplitAt]
  | cons c cs ih =>
    rw [List.count_cons] at h
    by_cases hc : c = '@'
    · simp [hc] at h
    · have hcs : cs.count '@' = 0 := by
        simp [hc] at h
        omega
      simp [goSplitAt, hc, ih hcs]

theorem goSplitAt_count_one (l : List Char) (h : l.count '@' = 1) :
    goSplitAt l =
      [l.takeWhile (fun c => c ≠ '@'), (l.dropWhile (fun c => c ≠ '@')).tail] := by
  induction l with
  | nil => simp [List.count_nil] at h
  | cons c cs ih =>
    rw [List.count_cons] at h
    by_cases hc : c = '@'
    · have hcs : cs.count '@' = 0 := by
        simp [hc] at h
        omega
      simp [goSplitAt, hc, goSplitAt_count_zero cs hcs, List.takeWhile_cons,
        List.dropWhile_cons]
    · have hcs : cs.count '@' = 1 := by
        simp [hc] at h
        omega
      rcases hsplit : goSplitAt cs with _ | ⟨p, ps⟩
      · exact absurd hsplit (goSplitAt_ne_nil cs)
      · have := ih hcs
        rw [hsplit] at this
        simp [goSplitAt, hc, hsplit, List.takeWhile_cons, List.dropWhile_cons,
          List.cons_eq_cons.mp this]

theorem goSplitAt_length (l : List Char) :
    (goSplitAt l).length = l.count '@' + 1 := by
  induction l with
  | nil => simp [goSplitAt]
  | cons c cs ih =>
    rw [List.count_cons]
    by_cases hc : c = '@'
    · simp [goSplitAt, hc, ih]
    · rcases h : goSplitAt cs with _ | ⟨p, ps⟩
      · exact absurd h (goSplitAt_ne_nil cs)
      · rw [h] at ih
        simp [goSplitAt, hc, h, hc]
        simp at ih
        omega

/-! ## Lemmas about `dep.New` -/

theorem New_Package (pkg t : String) :
    (New pkg t).Package = specBeforeFirstAt pkg := by
  rcases h : goSplitAt pkg.data with _ | ⟨p, ps⟩
  · exact absurd h (goSplitAt_ne_nil pkg.data)
  · have hh := goSplitAt_head pkg.data
    rw [h] at hh
    simp only [List.headD_cons] at hh
    unfold New specBeforeFirstAt
    simp only [h, List.map_cons, List.headD_cons, hh]
    split <;> rfl

theorem New_Constraints (pkg t : String) :
    (New pkg t).Constraints =
      if atCount pkg = 1 then specAfterFirstAt pkg else defaultVer := by
  by_cases h1 : atCount pkg = 1
  · have h2 := goSplitAt_count_one pkg.data (by simpa [atCount] using h1)
    unfold New specAfterFirstAt
    simp only [h2, List.map_cons, List.map_nil, if_pos h1]
    split <;> rfl
  · rw [if_neg h1]
    have hlen := goSplitAt_length pkg.data
    rcases h : goSplitAt pkg.data with _ | ⟨p, ps⟩
    · exact absurd h (goSplitAt_ne_nil pkg.data)
    · rcases ps with _ | ⟨q, qs⟩
      · unfold New
        simp only [h, List.map_cons, List.map_nil]
        split <;> rfl
      · rcases qs with _ | ⟨w, ws⟩
        · exfalso
          rw [h] at hlen
          simp only [List.length_cons, List.length_nil] at hlen
          exact h1 (by simp [atCount]; omega)
        · unfold New
          simp only [h, List.map_cons]
          split <;> rfl

theorem New_type (pkg t : String) :
    (New pkg t).type =
      if goTitle (goToLower t) = ConfigurationPackageType
        then ConfigurationPackageType else ProviderPackageType := by
  unfold New
  split <;> simp_all

/-- C2 (amended): for every input string, `New` takes the text before the
first `"@"` as the `Package`; the text after the first `"@"` becomes the
`Constraints` only when the input contains exactly one `"@"`, and
otherwise (no `"@"`, or two or more) the `Constraints` are the default
`"latest"` sentinel; the type is the configuration package type iff the
title-cased lower-casing of the type hint equals it, and the provider
package type otherwise. -/
theorem new_parses_single_at_reference (pkg t : String) :
    (New pkg t).Package = specBeforeFirstAt pkg ∧
    (New pkg t).Constraints =
      (if atCount pkg = 1 then specAfterFirstAt pkg else defaultVer) ∧
    (New pkg t).type =
      (if goTitle (goToLower t) = ConfigurationPackageType
        then ConfigurationPackageType else ProviderPackageType) :=
  ⟨New_Package pkg t, New_Constraints pkg t, New_type pkg t⟩

/-- C2 (counterexample): on `"a@b@c"` the part after the first `"@"` is
`"b@c"`, but `New` leaves the constraints at the `"latest"` default, so
the split-on-first-`"@"` description of the claim fails. -/
theorem new_multi_at_not_split_suffix :
    (New "a@b@c" "provider").Constraints = "latest" ∧
    (New "a@b@c" "provider").Constraints ≠ specAfterFirstAt "a@b@c" := by
  constructor
  · decide
  · decide

/-- C10: for every input with zero or two-or-more `"@"` characters, `New`
keeps the default `"latest"` constraints and takes the text before the
first `"@"` (the whole input when there is none) as the package source. -/
theorem new_defaults_unless_single_at (pkg t : String) (h : atCount pkg ≠ 1) :
    (New pkg t).Constraints = defaultVer ∧
    (New pkg t).Package = specBeforeFirstAt pkg := by
  refine ⟨?_, New_Package pkg t⟩
  rw [New_Constraints pkg t, if_neg h]

/-- C10 (witness): concrete inputs with zero and with two `"@"`. -/
theorem new_defaults_unless_single_at_witness :
    ((New "acme/db" "provider").Constraints = defaultVer ∧
      (New "acme/db" "provider").Package = specBeforeFirstAt "acme/db") ∧
    ((New "a@b@c" "xpkg").Constraints = defaultVer ∧
      (New "a@b@c" "xpkg").Package = specBeforeFirstAt "a@b@c") :=
  ⟨new_defaults_unless_single_at "acme/db" "provider" (by decide),
    new_defaults_unless_single_at "a@b@c" "xpkg" (by decide)⟩

end UpCloud

namespace UpCloud

/-! ## Claims about the cloud client -/

/-- C1: for every key with a non-empty namespace, each of `Get`, `List`,
`Create` and `Delete` returns the unsupported-scope error ("namespace is
not supported for Upbound Cloud control planes") and issues no call to the
wrapped backend client or the configuration lookup client. -/
theorem namespace_rejected_no_backend_calls (c : Client) (now : Int)
    (ns nm : String) (opts : Options) (h : ns ≠ "") :
    c.Get now ⟨ns, nm⟩ = (some (.error (.simple nsErrMsg)), []) ∧
    c.List now ns = (some (.error (.simple nsErrMsg)), []) ∧
    c.Create now ⟨ns, nm⟩ opts = (some (.error (.simple nsErrMsg)), []) ∧
    c.Delete ⟨ns, nm⟩ = (some (.error (.simple nsErrMsg)), []) := by
  refine ⟨?_, ?_, ?_, ?_⟩ <;>
    simp [Client.Get, Client.List, Client.Create, Client.Delete, h]

/-- C1 (witness): the four operations at a concrete namespaced key. -/
theorem namespace_rejected_no_backend_calls_witness :
    okClient.Get 0 ⟨"default", "cp1"⟩ = (some (.error (.simple nsErrMsg)), []) ∧
    okClient.List 0 "default" = (some (.error (.simple nsErrMsg)), []) ∧
    okClient.Create 0 ⟨"default", "cp1"⟩ ⟨"", none⟩ =
      (some (.error (.simple nsErrMsg)), []) ∧
    okClient.Delete ⟨"default", "cp1"⟩ = (some (.error (.simple nsErrMsg)), []) :=
  namespace_rejected_no_backend_calls okClient 0 "default" "cp1" ⟨"", none⟩
    (by decide)

/-- C3: on a non-namespaced key, `Get` and `Delete` translate a backend
not-found error into the typed not-found condition, propagate any other
backend error unchanged, and on backend success `Get` returns the
converted DTO while `Delete` returns no error. -/
theorem get_delete_error_translation (c : Client) (now : Int) (nm : String) :
    (∀ e, c.ctpGet c.account nm = .error e → isNotFound e = true →
      (c.Get now ⟨"", nm⟩).1 = some (.error (.ctpNotFound e))) ∧
    (∀ e, c.ctpGet c.account nm = .error e → isNotFound e = false →
      (c.Get now ⟨"", nm⟩).1 = some (.error e)) ∧
    (∀ resp r, c.ctpGet c.account nm = .ok resp → convert resp now = some r →
      (c.Get now ⟨"", nm⟩).1 = some (.ok r)) ∧
    (∀ e, c.ctpDelete c.account nm = .error e → isNotFound e = true →
      (c.Delete ⟨"", nm⟩).1 = some (.error (.ctpNotFound e))) ∧
    (∀ e, c.ctpDelete c.account nm = .error e → isNotFound e = false →
      (c.Delete ⟨"", nm⟩).1 = some (.error e)) ∧
    (c.ctpDelete c.account nm = .ok () → (c.Delete ⟨"", nm⟩).1 = some (.ok ())) := by
  refine ⟨?_, ?_, ?_, ?_, ?_, ?_⟩
  · intro e he hnf
    simp [Client.Get, he, hnf]
  · intro e he hnf
    simp [Client.Get, he, hnf]
  · intro resp r hresp hconv
    simp [Client.Get, hresp, hconv]
  · intro e he hnf
    simp [Client.Delete, he, hnf]
  · intro e he hnf
    simp [Client.Delete, he, hnf]
  · intro hok
    simp [Client.Delete, hok]

/-- C3 (witness): a not-found backend, a generically failing backend and a
succeeding backend, at concrete keys. -/
theorem get_delete_error_translation_witness :
    (notFoundClient.Get 0 ⟨"", "cp1"⟩).1 =
      some (.error (.ctpNotFound (.sdkNotFound "control plane not found"))) ∧
    (notFoundClient.Delete ⟨"", "cp1"⟩).1 =
      some (.error (.ctpNotFound (.sdkNotFound "control plane not found"))) ∧
    (failingClient.Get 0 ⟨"", "cp1"⟩).1 =
      some (.error (.simple "backend unavailable")) ∧
    (failingClient.Delete ⟨"", "cp1"⟩).1 =
      some (.error (.simple "backend unavailable")) ∧
    (okClient.Get 0 ⟨"", "cp1"⟩).1 =
      some (.ok ⟨"id1", "cp1", "True", "True", "", "cfg1", "Pending", none⟩) ∧
    (okClient.Delete ⟨"", "cp1"⟩).1 = some (.ok ()) :=
  ⟨(get_delete_error_translation notFoundClient 0 "cp1").1 _ rfl rfl,
    (get_delete_error_translation notFoundClient 0 "cp1").2.2.2.1 _ rfl rfl,
    (get_delete_error_translation failingClient 0 "cp1").2.1 _ rfl rfl,
    (get_delete_error_translation failingClient 0 "cp1").2.2.2.2.1 _ rfl rfl,
    (get_delete_error_translation okClient 0 "cp1").2.2.1 _ _ rfl rfl,
    (get_delete_error_translation okClient 0 "cp1").2.2.2.2.2 rfl⟩

/-- C4: on a non-namespaced key, `Create` with a configuration name issues
exactly one configuration lookup call followed by the backend create call;
a failed lookup is propagated unchanged with no create call; a successful
lookup puts the resolved configuration identifier into the create request;
without a configuration name no lookup call is made. -/
theorem create_configuration_lookup_protocol (c : Client) (now : Int)
    (nm : String) (opts : Options) :
    (opts.ConfigurationName = none →
      (c.Create now ⟨"", nm⟩ opts).2 =
        [Call.ctpCreate c.account ⟨nm, opts.Description, none⟩]) ∧
    (∀ n e, opts.ConfigurationName = some n → c.cfgGet c.account n = .error e →
      c.Create now ⟨"", nm⟩ opts = (some (.error e), [Call.cfgGet c.account n])) ∧
    (∀ n cfg, opts.ConfigurationName = some n → c.cfgGet c.account n = .ok cfg →
      (c.Create now ⟨"", nm⟩ opts).2 =
        [Call.cfgGet c.account n,
          Call.ctpCreate c.account ⟨nm, opts.Description, some cfg.ID⟩]) := by
  refine ⟨?_, ?_, ?_⟩
  · intro hnone
    simp [Client.Create, hnone]
  · intro n e hsome herr
    simp [Client.Create, hsome, herr]
  · intro n cfg hsome hok
    simp [Client.Create, hsome, hok]

/-- C4 (witness): a failed and a successful lookup, and a create without a
configuration name, at concrete inputs. -/
theorem create_configuration_lookup_protocol_witness :
    (okClient.Create 0 ⟨"", "cp3"⟩ ⟨"desc", none⟩).2 =
      [Call.ctpCreate "acct" ⟨"cp3", "desc", none⟩] ∧
    notFoundClient.Create 0 ⟨"", "cp3"⟩ ⟨"desc", some "cfg1"⟩ =
      (some (.error (.simple "configuration lookup failed")),
        [Call.cfgGet "acct" "cfg1"]) ∧
    (okClient.Create 0 ⟨"", "cp3"⟩ ⟨"desc", some "cfg1"⟩).2 =
      [Call.cfgGet "acct" "cfg1",
        Call.ctpCreate "acct" ⟨"cp3", "desc", some "cfg-uuid"⟩] :=
  ⟨(create_configuration_lookup_protocol okClient 0 "cp3" ⟨"desc", none⟩).1 rfl,
    (create_configuration_lookup_protocol notFoundClient 0 "cp3"
      ⟨"desc", some "cfg1"⟩).2.1 "cfg1" _ rfl rfl,
    (create_configuration_lookup_protocol okClient 0 "cp3"
      ⟨"desc", some "cfg1"⟩).2.2 "cfg1" _ rfl rfl⟩

end UpCloud

namespace UpCloud

/-! ## Lemmas about `convert` -/

theorem formatStatus_empty : formatStatus "" = "" := rfl

theorem formatStatus_default (s : String) (h1 : s ≠ "")
    (h2 : s ≠ ConfigurationReady) : formatStatus s = specCapitalize s := by
  simp [formatStatus, specCapitalize, h1, h2]

theorem convert_some_fields (resp : ControlPlaneResponse) (now : Int)
    (r : Response) (h : convert resp now = some r) :
    r.Synced = toBool true ∧
    r.Ready = toBool (resp.Status = StatusReady) ∧
    r.Message = toMessage resp.Status ∧
    ((resp.ControlPlane.Configuration = none ∧ r.Cfg = "" ∧
        r.Updated = formatStatus "") ∨
      (∃ cfg nm, resp.ControlPlane.Configuration = some cfg ∧
        cfg.Name = some nm ∧ r.Cfg = nm ∧ r.Updated = formatStatus cfg.Status)) := by
  rcases hc : resp.ControlPlane.Configuration with _ | cfg
  · simp only [convert, hc] at h
    injection h with h2
    subst h2
    exact ⟨rfl, rfl, rfl, Or.inl ⟨rfl, rfl, rfl⟩⟩
  · rcases hn : cfg.Name with _ | nm
    · simp [convert, hc, hn] at h
    · simp only [convert, hc, hn] at h
      injection h with h2
      subst h2
      exact ⟨rfl, rfl, rfl, Or.inr ⟨cfg, nm, rfl, hn, rfl, rfl⟩⟩

/-- C5: a converted response reports `Synced` as `"True"` unconditionally;
`Ready` as `"True"` exactly when the backend status is the ready value and
`"False"` otherwise; and `Message` as the creation/update/deletion notice
for the provisioning/updating/deleting statuses and as the empty string
for every other status (the ready status included). -/
theorem convert_synced_ready_message (resp : ControlPlaneResponse) (now : Int)
    (r : Response) (h : convert resp now = some r) :
    r.Synced = "True" ∧
    (resp.Status = StatusReady → r.Ready = "True") ∧
    (resp.Status ≠ StatusReady → r.Ready = "False") ∧
    (resp.Status = StatusProvisioning → r.Message = "Controlplane is being created") ∧
    (resp.Status = StatusUpdating → r.Message = "Controlplane is being updated") ∧
    (resp.Status = StatusDeleting → r.Message = "Controlplane is being deleted") ∧
    (resp.Status ≠ StatusProvisioning → resp.Status ≠ StatusUpdating →
      resp.Status ≠ StatusDeleting → r.Message = "") := by
  obtain ⟨hS, hR, hM, _⟩ := convert_some_fields resp now r h
  refine ⟨hS, ?_, ?_, ?_, ?_, ?_, ?_⟩
  · intro hst
    rw [hR]
    simp [toBool, hst]
  · intro hst
    rw [hR]
    simp [toBool, hst]
  · intro hst
    rw [hM]
    simp [toMessage, hst]
  · intro hst
    rw [hM, hst]
    simp [toMessage, StatusUpdating, StatusProvisioning]
  · intro hst
    rw [hM, hst]
    simp [toMessage, StatusDeleting, StatusProvisioning, StatusUpdating]
  · intro h1 h2 h3
    rw [hM]
    simp [toMessage, h1, h2, h3]

/-- C5 (witness): conversion of a concrete provisioning control plane and
of a concrete ready one. -/
theorem convert_synced_ready_message_witness :
    (⟨"id2", "cp2", "True", "False", "Controlplane is being created", "", "",
        none⟩ : Response).Synced = "True" ∧
    (⟨"id2", "cp2", "True", "False", "Controlplane is being created", "", "",
        none⟩ : Response).Ready = "False" ∧
    (⟨"id2", "cp2", "True", "False", "Controlplane is being created", "", "",
        none⟩ : Response).Message = "Controlplane is being created" ∧
    (⟨"id1", "cp1", "True", "True", "", "cfg1", "Pending", none⟩ :
        Response).Ready = "True" ∧
    (⟨"id1", "cp1", "True", "True", "", "cfg1", "Pending", none⟩ :
        Response).Message = "" :=
  ⟨(convert_synced_ready_message samplePlainCP 0 _ rfl).1,
    (convert_synced_ready_message samplePlainCP 0 _ rfl).2.2.1 (by decide),
    (convert_synced_ready_message samplePlainCP 0 _ rfl).2.2.2.1 rfl,
    (convert_synced_ready_message sampleCfgCP 0 _ rfl).2.1 rfl,
    (convert_synced_ready_message sampleCfgCP 0 _ rfl).2.2.2.2.2.2 (by decide)
      (by decide) (by decide)⟩

/-- C6: a converted response has empty `Cfg` and `Updated` when the
backend control plane carries no configuration reference; when one is
present, `Cfg` is its name and `Updated` follows the status-format rule:
empty stays empty, the canonical ready status renders as `"True"`, and any
other non-empty status is capitalized (first character upper-cased,
remainder unchanged). -/
theorem convert_cfg_updated_format (resp : ControlPlaneResponse) (now : Int)
    (r : Response) (h : convert resp now = some r) :
    (resp.ControlPlane.Configuration = none → r.Cfg = "" ∧ r.Updated = "") ∧
    (∀ cfg nm, resp.ControlPlane.Configuration = some cfg → cfg.Name = some nm →
      r.Cfg = nm ∧
      (cfg.Status = "" → r.Updated = "") ∧
      (cfg.Status = ConfigurationReady → r.Updated = "True") ∧
      (cfg.Status ≠ "" → cfg.Status ≠ ConfigurationReady →
        r.Updated = specCapitalize cfg.Status)) := by
  obtain ⟨_, _, _, hcfg⟩ := convert_some_fields resp now r h
  constructor
  · intro hnone
    rcases hcfg with ⟨_, hCfg, hUpd⟩ | ⟨cfg, nm, hsome, _⟩
    · exact ⟨hCfg, by rw [hUpd, formatStatus_empty]⟩
    · rw [hnone] at hsome
      cases hsome
  · intro cfg nm hsome hnm
    rcases hcfg with ⟨hnone, _, _⟩ | ⟨cfg2, nm2, hsome2, hnm2, hCfg, hUpd⟩
    · rw [hsome] at hnone
      cases hnone
    · rw [hsome] at hsome2
      injection hsome2 with he
      subst he
      rw [hnm] at hnm2
      injection hnm2 with hn
      subst hn
      refine ⟨hCfg, ?_, ?_, ?_⟩
      · intro hst
        rw [hUpd, hst, formatStatus_empty]
      · intro hst
        rw [hUpd, hst]
        simp [formatStatus, ConfigurationReady]
      · intro h1 h2
        rw [hUpd, formatStatus_default cfg.Status h1 h2]

/-- C6 (witness): conversion of a concrete control plane with a pending
configuration and of one without a configuration reference. -/
theorem convert_cfg_updated_format_witness :
    (⟨"id1", "cp1", "True", "True", "", "cfg1", "Pending", none⟩ :
        Response).Cfg = "cfg1" ∧
    (⟨"id1", "cp1", "True", "True", "", "cfg1", "Pending", none⟩ :
        Response).Updated = specCapitalize "pending" ∧
    (⟨"id2", "cp2", "True", "False", "Controlplane is being created", "", "",
        none⟩ : Response).Cfg = "" ∧
    (⟨"id2", "cp2", "True", "False", "Controlplane is being created", "", "",
        none⟩ : Response).Updated = "" :=
  ⟨((convert_cfg_updated_format sampleCfgCP 0 _ rfl).2 ⟨some "cfg1", "pending"⟩
      "cfg1" rfl rfl).1,
    ((convert_cfg_updated_format sampleCfgCP 0 _ rfl).2 ⟨some "cfg1", "pending"⟩
      "cfg1" rfl rfl).2.2.2 (by decide) (by decide),
    ((convert_cfg_updated_format samplePlainCP 0 _ rfl).1 rfl).1,
    ((convert_cfg_updated_format samplePlainCP 0 _ rfl).1 rfl).2⟩

/-- C9: `convert` is total exactly under the precondition that a present
configuration reference carries a name: with the precondition the
conversion always yields a result, and the panic branch (nil `Name`
dereference) is reached by a DTO whose configuration reference is present
with an absent name. -/
theorem convert_total_iff_config_name_present :
    (∀ (resp : ControlPlaneResponse) (now : Int),
      (∀ cfg, resp.ControlPlane.Configuration = some cfg → cfg.Name ≠ none) →
      (convert resp now).isSome = true) ∧
    convert ⟨⟨"id3", "cp3", some ⟨none, "ready"⟩, none⟩, "ready"⟩ 0 = none := by
  constructor
  · intro resp now hpre
    rcases hc : resp.ControlPlane.Configuration with _ | cfg
    · simp [convert, hc]
    · rcases hn : cfg.Name with _ | nm
      · exact absurd hn (hpre cfg hc)
      · simp [convert, hc, hn]
  · rfl

/-- C9 (witness): the totality direction applied to a concrete DTO whose
configuration name is present. -/
theorem convert_total_iff_config_name_present_witness :
    (convert sampleCfgCP 0).isSome = true :=
  convert_total_iff_config_name_present.1 sampleCfgCP 0
    (by
      intro cfg hcfg
      injection hcfg with he
      rw [← he]
      decide)

end UpCloud

namespace UpCloud

/-! ## Lemmas about `convertList` and `Client.List` -/

theorem convertList_length_get (now : Int) :
    ∀ (l : List ControlPlaneResponse) (rs : List Response),
      convertList l now = some rs →
      rs.length = l.length ∧
      ∀ i (h1 : i < l.length) (h2 : i < rs.length),
        convert (l.get ⟨i, h1⟩) now = some (rs.get ⟨i, h2⟩) := by
  intro l
  induction l with
  | nil =>
    intro rs h
    simp only [convertList] at h
    injection h with h2
    subst h2
    simp
  | cons r rest ih =>
    intro rs h
    rcases hcv : convert r now with _ | x
    · simp [convertList, hcv] at h
    · simp only [convertList, hcv] at h
      rcases hrest : convertList rest now with _ | xs
      · rw [hrest] at h
        simp at h
      · rw [hrest] at h
        simp only [Option.map_some'] at h
        injection h with h2
        subst h2
        obtain ⟨ihlen, ihget⟩ := ih xs hrest
        constructor
        · simp [ihlen]
        · intro i h1 h2
          cases i with
          | zero => simpa using hcv
          | succ n =>
            simp only [List.get_cons_succ]
            exact ihget n (by simpa using h1) (by simpa using h2)

/-- C7: `GetKubeConfig` succeeds on every key, namespaced or not, without
any backend call, and its result is determined solely by the configured
proxy endpoint, the joined `account/name` path and the configured
token. -/
theorem getkubeconfig_total_deterministic (c d : Client)
    (k j : NamespacedName) (hp : c.proxy = d.proxy) (ht : c.token = d.token)
    (hpath : pathJoin c.account k.Name = pathJoin d.account j.Name) :
    (c.GetKubeConfig k).2 = [] ∧
    (c.GetKubeConfig k).1 =
      some (.ok (BuildControlPlaneKubeconfig c.proxy
        (pathJoin c.account k.Name) c.token false)) ∧
    c.GetKubeConfig k = d.GetKubeConfig j := by
  refine ⟨rfl, rfl, ?_⟩
  unfold Client.GetKubeConfig
  rw [hp, ht, hpath]

/-- C7 (witness): a concrete key with a non-empty namespace produces the
same successful bundle as the corresponding non-namespaced key, with no
backend call. -/
theorem getkubeconfig_total_deterministic_witness :
    (okClient.GetKubeConfig ⟨"default", "cp1"⟩).2 = [] ∧
    (okClient.GetKubeConfig ⟨"default", "cp1"⟩).1 =
      some (.ok (BuildControlPlaneKubeconfig
        (some "https://proxy.upbound.io/v1/controlPlanes") "acct/cp1" "tok"
        false)) ∧
    okClient.GetKubeConfig ⟨"default", "cp1"⟩ =
      okClient.GetKubeConfig ⟨"", "cp1"⟩ := by
  have h := getkubeconfig_total_deterministic okClient okClient
    ⟨"default", "cp1"⟩ ⟨"", "cp1"⟩ rfl rfl rfl
  refine ⟨h.1, ?_, h.2.2⟩
  rw [h.2.1]
  rfl

/-- C8: a `List` call with an empty namespace queries the backend with the
fixed page size 100; on backend success the result holds exactly one
converted response per backend element in the backend's order, and a
backend result with zero elements yields the empty sequence with no
error. -/
theorem list_fixed_page_and_elementwise (c : Client) (now : Int) :
    (c.List now "").2 = [Call.ctpList c.account 100] ∧
    (∀ l rs, c.ctpList c.account maxItems = .ok l →
      (c.List now "").1 = some (.ok rs) →
      rs.length = l.ControlPlanes.length ∧
      ∀ i (h1 : i < l.ControlPlanes.length) (h2 : i < rs.length),
        convert (l.ControlPlanes.get ⟨i, h1⟩) now = some (rs.get ⟨i, h2⟩)) ∧
    (∀ l, c.ctpList c.account maxItems = .ok l → l.ControlPlanes = [] →
      (c.List now "").1 = some (.ok [])) := by
  refine ⟨?_, ?_, ?_⟩
  · rcases hl : c.ctpList c.account 100 with e | l <;>
      simp [Client.List, maxItems, hl]
  · intro l rs hl hres
    simp only [Client.List, if_neg (by simp : ¬ ("" : String) ≠ ""), hl] at hres
    rcases hcl : convertList l.ControlPlanes now with _ | xs
    · rw [hcl] at hres
      simp at hres
    · rw [hcl] at hres
      simp only [Option.map_some'] at hres
      injection hres with h2
      injection h2 with h3
      subst h3
      exact convertList_length_get now l.ControlPlanes _ hcl
  · intro l hl hnil
    simp [Client.List, hl, hnil, convertList]

/-- C8 (witness): a concrete two-element listing and a concrete empty
listing. -/
theorem list_fixed_page_and_elementwise_witness :
    (okClient.List 0 "").2 = [Call.ctpList "acct" 100] ∧
    ([⟨"id1", "cp1", "True", "True", "", "cfg1", "Pending", none⟩,
        ⟨"id2", "cp2", "True", "False", "Controlplane is being created", "",
          "", none⟩] : List Response).length =
      ([sampleCfgCP, samplePlainCP] : List ControlPlaneResponse).length ∧
    (emptyListClient.List 0 "").1 = some (.ok []) :=
  ⟨(list_fixed_page_and_elementwise okClient 0).1,
    ((list_fixed_page_and_elementwise okClient 0).2.1 ⟨[sampleCfgCP,
      samplePlainCP]⟩ _ rfl rfl).1,
    (list_fixed_page_and_elementwise emptyListClient 0).2.2 ⟨[]⟩ rfl rfl⟩

end UpCloud
